import Mathlib

/-!
Verification development for the mpl-core deployment-and-verification
pipeline (the candy-machine test script and its sibling collection scripts).

The embedding is shallow: the TypeScript functions of the repository are
translated into Lean definitions.  External collaborators (the ledger RPC
client, the file system, the eddsa keypair constructor) are modelled as
explicit outcome parameters: a pipeline run is a pure function of the
outcomes the network and file system would have produced, and every claim is
settled for all such outcomes.  Console output is modelled as the list of
emitted lines, built from the exact string templates of the source.
-/

namespace MplCore

/-- A value thrown by a JavaScript statement: either an Error carrying a
message, or any non-Error value (the source discriminates the two with
an instanceof test in its catch blocks). -/
inductive Thrown where
  | error (msg : String)
  | nonError
deriving DecidableEq

/-- Outcome of one awaited sendAndConfirm submission: it either confirms or
throws some value. -/
inductive StepResult where
  | success
  | failure (t : Thrown)
deriving DecidableEq

/-- Expected candy-machine state, the comparison record of the source
(interface ExpectedCandyMachineState, src/unnamed/part_003 lines 44-49).
PublicKey fields are compared through toString in the source, so they are
modelled as strings. -/
structure ExpectedCandyMachineState where
  itemsLoaded : Nat
  itemsRedeemed : Nat
  authority : String
  collection : String
deriving DecidableEq

/-- The fields of the on-chain candy-machine record that checkCandyMachine
reads from fetchCandyMachine's result (src/unnamed/part_003 lines 78-91).
itemsRedeemed is a bigint converted with Number before the comparison;
both counters are modelled as naturals, addresses as their toString form. -/
structure CandyMachineRecord where
  itemsRedeemed : Nat
  itemsLoaded : Nat
  authority : String
  collectionMint : String
deriving DecidableEq

/-- Outcome of an awaited fetchCandyMachine call: the deserialized record, or
a thrown value (account absent, network error, ...). -/
inductive FetchOutcome where
  | fetched (m : CandyMachineRecord)
  | thrown (t : Thrown)
deriving DecidableEq

/-- The step-number guard of the source's logging, a JavaScript truthiness
test on an optional number: console.log runs only when step is present and
nonzero (step && console.log(...)). -/
def logIfStep (step : Option Nat) (line : Nat → String) : List String :=
  match step with
  | none => []
  | some n => if n = 0 then [] else [line n]

/-- The success line of checkCandyMachine (src/unnamed/part_003 line 92). -/
def successLine (s : Nat) : String :=
  toString s ++ ". ✅ - Candy Machine has the correct configuration."

/-- The failure line of checkCandyMachine's Error branch (line 95): the same
template serves every thrown Error, whether it came from a field-mismatch
throw inside the try block or from the fetch itself. -/
def mismatchLine (s : Nat) (msg : String) : String :=
  toString s ++ ". ❌ - Candy Machine incorrect configuration: " ++ msg

/-- The failure line of checkCandyMachine's non-Error branch (line 97). -/
def fetchFailLine (s : Nat) : String :=
  toString s ++ ". ❌ - Error fetching the Candy Machine."

/-- The try block of checkCandyMachine (src/unnamed/part_003 lines 77-92):
fetch the record, then compare itemsRedeemed, itemsLoaded, authority and
collectionMint in that order, throwing an Error at the first mismatch;
when all four match, log the success marker (guarded by the step number). -/
def checkCMBody (fetch : FetchOutcome) (e : ExpectedCandyMachineState)
    (step : Option Nat) : Except Thrown (List String) :=
  match fetch with
  | .thrown t => .error t
  | .fetched m =>
    if m.itemsRedeemed ≠ e.itemsRedeemed then
      .error (.error "Incorrect number of items available in the Candy Machine.")
    else if m.itemsLoaded ≠ e.itemsLoaded then
      .error (.error "Incorrect number of items loaded in the Candy Machine.")
    else if m.authority ≠ e.authority then
      .error (.error "Incorrect authority in the Candy Machine.")
    else if m.collectionMint ≠ e.collection then
      .error (.error "Incorrect collection in the Candy Machine.")
    else
      .ok (logIfStep step successLine)

/-- checkCandyMachine (src/unnamed/part_003 lines 71-100): the try block
wrapped in the catch that logs an incorrect-configuration line for a thrown
Error and a fetch-error line for any other thrown value; the catch returns
normally in both branches. -/
def checkCandyMachine (fetch : FetchOutcome) (e : ExpectedCandyMachineState)
    (step : Option Nat) : Except Thrown (List String) :=
  match checkCMBody fetch e step with
  | .ok logs => .ok logs
  | .error (.error msg) => .ok (logIfStep step (fun s => mismatchLine s msg))
  | .error .nonError => .ok (logIfStep step fetchFailLine)

/-- A balance as the umi SolAmount carries it: an integer count of
basis points (lamports). -/
structure SolAmount where
  basisPoints : Int
deriving DecidableEq

/-- calculateCost (src/unnamed/part_003 lines 102-106 and
src/core-collection.ts lines 114-118): each balance is divided by 10^9 into
the human SOL denomination and the results are subtracted.  The source's
Number arithmetic is modelled exactly over the rationals. -/
def calculateCost (startingBalance finalBalance : SolAmount) : ℚ :=
  (startingBalance.basisPoints : ℚ) / 1000000000
    - (finalBalance.basisPoints : ℚ) / 1000000000

/-- Whether the character list sub starts the character list it is compared
against. -/
def listIsPrefix : List Char → List Char → Bool
  | [], _ => true
  | _ :: _, [] => false
  | a :: as, b :: bs => a == b && listIsPrefix as bs

/-- Whether the character list sub occurs contiguously inside the second
list. -/
def listContainsSub (sub : List Char) : List Char → Bool
  | [] => sub.isEmpty
  | a :: rest => listIsPrefix sub (a :: rest) || listContainsSub sub rest

/-- Whether sub occurs as a contiguous substring of s. -/
def containsSubstr (s sub : String) : Bool :=
  listContainsSub sub.data s.data

/-! The environment of a pipeline run: the identities main generates and the
outcomes of the awaited network calls.  The source performs these calls
against the devnet ledger; the model quantifies over their results. -/

/-- Everything a run of main (src/unnamed/part_003 lines 108-256) can observe
from outside: the toString forms of the generated identities, and the
outcome of each awaited submission and fetch, in program order.  mints i is
the outcome the i-th mint submission would have, were it attempted; assetPks
i the address of the signer generated in iteration i. -/
structure RunOutcomes where
  identityPk : String
  collectionMintPk : String
  treasuryPk : String
  candyMachinePk : String
  assetPks : Nat → String
  createCollection : StepResult
  createMachine : StepResult
  addConfigLines : StepResult
  fetch1 : FetchOutcome
  mints : Nat → StepResult
  fetch2 : FetchOutcome
  deleteMachine : StepResult

/-- The generic try/catch around one pipeline step: the success branch logs
its lines, the catch branch logs its fixed lines; the thrown value is bound
but never read by any of the source's catch blocks (lines 141-143, 173-175,
189-191, 230-232, 253-255). -/
def tryStep (r : StepResult) (onSuccess onFailure : List String) : List String :=
  match r with
  | .success => onSuccess
  | .failure _ => onFailure

/-- Result of the mint loop: how many iterations were entered, the value of
the minted counter, the per-asset log lines, and the value that escaped the
loop when an iteration threw. -/
structure MintLoopResult where
  attempted : Nat
  minted : Nat
  logs : List String
  err : Option Thrown
deriving DecidableEq

/-- The for loop of the mint step (src/unnamed/part_003 lines 210-228),
iterating over the remaining indices: an iteration awaits its submission;
a thrown value propagates out of the loop immediately (the try block wraps
the WHOLE loop), a success increments minted and logs the asset address. -/
def mintLoopGo (mints : Nat → StepResult) (assetPks : Nat → String) :
    List Nat → Nat → Nat → MintLoopResult
  | [], attempted, minted => ⟨attempted, minted, [], none⟩
  | i :: rest, attempted, minted =>
    match mints i with
    | .failure t => ⟨attempted + 1, minted, [], some t⟩
    | .success =>
      let r := mintLoopGo mints assetPks rest (attempted + 1) (minted + 1)
      ⟨r.attempted, r.minted, ("Asset Address: " ++ assetPks i) :: r.logs, r.err⟩

/-- The mint loop for i in 0..numMints (source: numMints = 3, minted = 0). -/
def mintLoop (mints : Nat → StepResult) (assetPks : Nat → String)
    (numMints : Nat) : MintLoopResult :=
  mintLoopGo mints assetPks (List.range numMints) 0 0

/-- The closing line of the mint step: the success log inside the try block
when the loop ran to completion (line 229), the catch block's generic line
when an iteration threw (line 231). -/
def mintFinalLine (env : RunOutcomes) : String :=
  match (mintLoop env.mints env.assetPks 3).err with
  | none => "6. ✅ - Minted " ++ toString (mintLoop env.mints env.assetPks 3).minted ++ " NFTs."
  | some _ => "6. ❌ - Error minting NFTs."

/-- All lines of the mint step (src/unnamed/part_003 lines 207-232). -/
def mintStep (env : RunOutcomes) : List String :=
  (mintLoop env.mints env.assetPks 3).logs ++ [mintFinalLine env]

/-- The expected-state record of the post-load verification call
(src/unnamed/part_003 lines 197-202). -/
def postLoadExpected (env : RunOutcomes) : ExpectedCandyMachineState :=
  { itemsLoaded := 3
    authority := env.identityPk
    collection := env.collectionMintPk
    itemsRedeemed := 0 }

/-- The expected-state record of the post-mint verification call
(src/unnamed/part_003 lines 238-243): itemsRedeemed is the literal 3,
not the loop's minted counter, which is out of scope at this point. -/
def postMintExpected (env : RunOutcomes) : ExpectedCandyMachineState :=
  { itemsLoaded := 3
    authority := env.identityPk
    collection := env.collectionMintPk
    itemsRedeemed := 3 }

/-- The opening console lines of main (lines 109-110); the constant
console.table of addresses is elided as it carries no step marker. -/
def headerLogs : List String :=
  ["Testing Candy Machine Core...", "Important account information:"]

/-- The full line list of a run of main, given the lines the two verification
calls produced, concatenated in program order. -/
def pipelineLogs (env : RunOutcomes) (l5 l7 : List String) : List String :=
  headerLogs ++
    (tryStep env.createCollection
      ["2. ✅ - Created collection: " ++ env.collectionMintPk]
      ["2. ❌ - Error creating collection."] ++
    (tryStep env.createMachine
      ["3. ✅ - Created Candy Machine: " ++ env.candyMachinePk]
      ["3. ❌ - Error creating Candy Machine."] ++
    (tryStep env.addConfigLines
      ["4. ✅ - Added items to the Candy Machine: " ++ env.candyMachinePk]
      ["4. ❌ - Error adding items to the Candy Machine."] ++
    (l5 ++
    (mintStep env ++
    (l7 ++
    tryStep env.deleteMachine
      ["8. ✅ - Deleted the Candy Machine: " ++ env.candyMachinePk]
      ["8. ❌ - Error deleting the Candy Machine."]))))))

/-- main (src/unnamed/part_003 lines 108-256): the five mutating steps each
sit in their own try/catch and cannot throw; the two awaited
checkCandyMachine calls are unguarded, so a thrown value from either would
propagate out of main (modelled by the Except bind). -/
def main (env : RunOutcomes) : Except Thrown (List String) :=
  match checkCandyMachine env.fetch1 (postLoadExpected env) (some 5) with
  | .error t => .error t
  | .ok l5 =>
    match checkCandyMachine env.fetch2 (postMintExpected env) (some 7) with
    | .error t => .error t
    | .ok l7 => .ok (pipelineLogs env l5 l7)

/-! The wallet loader (src/unnamed/part_003 lines 51-69 and
src/core-collection.ts lines 30-48, identical bodies). -/

/-- The process environment variables the loader reads. -/
structure WalletEnv where
  home : Option String
  userprofile : Option String

/-- JavaScript a-or-b on an optional string: undefined and the empty string
are falsy. -/
def jsOrString (a : Option String) (b : String) : String :=
  match a with
  | none => b
  | some s => if s = "" then b else s

/-- Modelled from the source's use of Node path.join on a directory and a
relative file path: the two joined with a separator, the empty directory
contributing nothing. -/
def pathJoin (dir file : String) : String :=
  if dir = "" then file else dir ++ "/" ++ file

/-- The default wallet location (lines 54-57): HOME, else USERPROFILE, else
the empty string, joined with the fixed relative path. -/
def defaultWalletPath (env : WalletEnv) : String :=
  pathJoin (jsOrString env.home (jsOrString env.userprofile ""))
    ".config/solana/dev-wallet.json"

/-- The resolved source path (line 58): the caller's path when given and
nonempty, the default location otherwise. -/
def finalWalletPath (env : WalletEnv) (walletPath : Option String) : String :=
  jsOrString walletPath (defaultWalletPath env)

/-- Model of JavaScript string interpolation of a caught value. -/
def thrownToString : Thrown → String
  | .error m => "Error: " ++ m
  | .nonError => "[thrown value]"

/-- loadWallet: the try body (readFileSync, JSON.parse,
createKeypairFromSecretKey, createSignerFromKeypair — external collaborators,
spec section 6) is an oracle from the resolved path to a signer or a thrown
value; any thrown value is caught and rethrown as an Error whose message
interpolates the resolved path and the caught value (line 67). -/
def loadWallet {α : Type} (env : WalletEnv) (tryBody : String → Except Thrown α)
    (walletPath : Option String) : Except Thrown α :=
  match tryBody (finalWalletPath env walletPath) with
  | .ok signer => .ok signer
  | .error e =>
    .error (.error ("Failed to load wallet from " ++ finalWalletPath env walletPath
      ++ ": " ++ thrownToString e))

/-! The royalty configurations the repository's scripts construct
(spec sections 3 and 8: shares sum to 100, basis points in 0..10000). -/

/-- One creator entry of a Royalties plugin. -/
structure RoyaltyCreator where
  address : String
  percentage : Int
deriving DecidableEq

/-- The Royalties plugin configuration as the scripts build it. -/
structure RoyaltiesPlugin where
  basisPoints : Int
  creators : List RoyaltyCreator
deriving DecidableEq

/-- Modelled from the spec: the royalty invariant — creator percentage
shares sum to exactly 100 and the basis-point rate lies in 0..10000.  The
enforcing validator lives in the external mpl-core program, not in this
repository; the repository-side question is whether every constructed
configuration satisfies it. -/
def validRoyalties (p : RoyaltiesPlugin) : Prop :=
  (p.creators.map (fun c => c.percentage)).sum = 100
    ∧ 0 ≤ p.basisPoints ∧ p.basisPoints ≤ 10000

/-- The Royalties plugin of the candy-machine pipeline's collection
(src/unnamed/part_003 lines 124-138): 500 basis points, one creator at
100 percent. -/
def pipelineRoyalties (identityPk : String) : RoyaltiesPlugin :=
  { basisPoints := 500, creators := [{ address := identityPk, percentage := 100 }] }

/-- The Royalties plugin of src/core-collection.ts lines 143-157: 500 basis
points, the payer at 100 percent. -/
def coreCollectionRoyalties (payerPk : String) : RoyaltiesPlugin :=
  { basisPoints := 500, creators := [{ address := payerPk, percentage := 100 }] }

/-- The Royalties plugin of src/create-collection.ts: 500 basis points, the
payer at 100 percent. -/
def createCollectionRoyalties (payerPk : String) : RoyaltiesPlugin :=
  { basisPoints := 500, creators := [{ address := payerPk, percentage := 100 }] }

/-- The Royalties plugin of src/unnamed/part_000 lines 64-82: 500 basis
points, two creators at 20 and 80 percent. -/
def educoreRoyalties (creator1Pk creator2Pk : String) : RoyaltiesPlugin :=
  { basisPoints := 500
    creators := [{ address := creator1Pk, percentage := 20 },
                 { address := creator2Pk, percentage := 80 }] }

/-! Spec-side descriptions used by the refinement statements. -/

/-- Whether a submission outcome confirmed. -/
def isSuccess : StepResult → Bool
  | .success => true
  | .failure _ => false

/-- The thrown value of a failed submission outcome. -/
def errOf : StepResult → Option Thrown
  | .success => none
  | .failure t => some t

/-- Index of the first failing mint iteration among the first n, if any. -/
def firstMintFailure (mints : Nat → StepResult) (n : Nat) : Option Nat :=
  (List.range n).find? (fun i => !(isSuccess (mints i)))

/-- Spec-side description of the mint loop (the amended claim C1): iterations
run in ascending order until the first failure or until all n complete; the
minted counter counts exactly the successful iterations, so it equals the
index of the first failure when there is one and n otherwise; a failure ends
the loop with the thrown value escaping. -/
def mintLoopDescribed (mints : Nat → StepResult) (assetPks : Nat → String)
    (n : Nat) : MintLoopResult :=
  match firstMintFailure mints n with
  | none =>
    ⟨n, n, (List.range n).map (fun i => "Asset Address: " ++ assetPks i), none⟩
  | some k =>
    ⟨k + 1, k, (List.range k).map (fun i => "Asset Address: " ++ assetPks i),
      errOf (mints k)⟩

/-! Concrete sample data for the closed counterexample statements. -/

/-- A fetched record agreeing with the post-load expectation of the sample
run. -/
def sampleRecordPostLoad : CandyMachineRecord :=
  { itemsRedeemed := 0, itemsLoaded := 3, authority := "PAYER", collectionMint := "COLL" }

/-- A fetched record agreeing with the post-mint expectation of the sample
run. -/
def sampleRecordPostMint : CandyMachineRecord :=
  { itemsRedeemed := 3, itemsLoaded := 3, authority := "PAYER", collectionMint := "COLL" }

/-- A fully successful sample run. -/
def baseEnv : RunOutcomes :=
  { identityPk := "PAYER"
    collectionMintPk := "COLL"
    treasuryPk := "TREASURY"
    candyMachinePk := "CANDY"
    assetPks := fun i => "ASSET" ++ toString i
    createCollection := .success
    createMachine := .success
    addConfigLines := .success
    fetch1 := .fetched sampleRecordPostLoad
    mints := fun _ => .success
    fetch2 := .fetched sampleRecordPostMint
    deleteMachine := .success }

/-- The sample run whose collection-creation submission throws an Error with
message boom. -/
def envCollectionBoom : RunOutcomes :=
  { baseEnv with createCollection := .failure (.error "boom") }

/-- The sample run whose every mint submission throws. -/
def envAllMintsFail : RunOutcomes :=
  { baseEnv with mints := fun _ => .failure .nonError }

/-- The sample run whose first mint succeeds and whose second mint throws. -/
def envSecondMintFails : RunOutcomes :=
  { baseEnv with mints := fun i => if i = 0 then .success else .failure .nonError }

/-- The lines the sample run envCollectionBoom emits. -/
def logsCollectionBoom : List String :=
  ["Testing Candy Machine Core...",
   "Important account information:",
   "2. ❌ - Error creating collection.",
   "3. ✅ - Created Candy Machine: CANDY",
   "4. ✅ - Added items to the Candy Machine: CANDY",
   "5. ✅ - Candy Machine has the correct configuration.",
   "Asset Address: ASSET0",
   "Asset Address: ASSET1",
   "Asset Address: ASSET2",
   "6. ✅ - Minted 3 NFTs.",
   "7. ✅ - Candy Machine has the correct configuration.",
   "8. ✅ - Deleted the Candy Machine: CANDY"]

/-- A fetch-failure message in the shape the umi account fetchers throw for
an absent account. -/
def accountNotFoundMsg : String :=
  "The account of type [CandyMachine] was not found at the provided address [CANDY]."

/-! Helper lemmas. -/

/-- A list is a Boolean prefix of itself followed by anything. -/
lemma listIsPrefix_append (l rest : List Char) :
    listIsPrefix l (l ++ rest) = true := by
  induction l with
  | nil => simp [listIsPrefix]
  | cons a as ih => simp [listIsPrefix, ih]

/-- A character list occurs inside any list that sandwiches it. -/
lemma listContainsSub_append_middle (pre sub post : List Char) :
    listContainsSub sub (pre ++ sub ++ post) = true := by
  induction pre with
  | nil =>
    cases sub with
    | nil =>
      induction post with
      | nil => simp [listContainsSub, List.isEmpty]
      | cons b bs ih => simp [listContainsSub, listIsPrefix]
    | cons a as =>
      simp only [List.nil_append, List.cons_append, listContainsSub]
      have h := listIsPrefix_append (a :: as) post
      simp only [List.cons_append] at h
      simp [h]
  | cons p ps ih =>
    simp only [List.cons_append, listContainsSub, List.append_eq, ih, Bool.or_true]

/-- A string occurs inside any string that sandwiches it. -/
lemma containsSubstr_append_middle (pre mid post : String) :
    containsSubstr (pre ++ mid ++ post) mid = true := by
  unfold containsSubstr
  rw [String.data_append, String.data_append]
  exact listContainsSub_append_middle pre.data mid.data post.data

/-- checkCandyMachine returns normally for every fetch outcome, expected
state and step argument: its catch has no rethrowing branch. -/
lemma checkCandyMachine_isOk (fetch : FetchOutcome)
    (e : ExpectedCandyMachineState) (step : Option Nat) :
    ∃ logs, checkCandyMachine fetch e step = Except.ok logs := by
  unfold checkCandyMachine
  cases h : checkCMBody fetch e step with
  | ok logs => exact ⟨logs, rfl⟩
  | error t => cases t with
    | error msg => exact ⟨_, rfl⟩
    | nonError => exact ⟨_, rfl⟩

/-- The step marker a try/catch-wrapped step emits: its success line on
success, its fixed failure line otherwise. -/
def stepLine (r : StepResult) (ok bad : String) : String :=
  match r with
  | .success => ok
  | .failure _ => bad

/-- The emitted marker of a wrapped step is among the step's lines. -/
lemma stepLine_mem_tryStep (r : StepResult) (ok bad : String) :
    stepLine r ok bad ∈ tryStep r [ok] [bad] := by
  cases r <;> simp [stepLine, tryStep]

/-- The mint step always emits its closing marker. -/
lemma mintFinalLine_mem_mintStep (env : RunOutcomes) :
    mintFinalLine env ∈ mintStep env := by
  simp [mintStep]

/-- Right-associated form of the sandwich lemma. -/
lemma listContainsSub_append_middle_assoc (pre sub post : List Char) :
    listContainsSub sub (pre ++ (sub ++ post)) = true := by
  rw [← List.append_assoc]
  exact listContainsSub_append_middle pre sub post

/-! The claims. -/

/-- Claim C1, counterexample: in the run whose first mint submission throws,
only one of the three iterations is attempted (the try block wraps the whole
loop, so the thrown value ends it), refuting that each of the N iterations
is attempted regardless of earlier failures. -/
theorem mintLoop_not_all_attempted_cex :
    (mintLoop envAllMintsFail.mints envAllMintsFail.assetPks 3).attempted = 1
    ∧ ((mintLoop envAllMintsFail.mints envAllMintsFail.assetPks 3).attempted == 3) = false
    ∧ (mintLoop envAllMintsFail.mints envAllMintsFail.assetPks 3).minted = 0 :=
  ⟨rfl, rfl, rfl⟩

/-- Claim C1, amended: the mint loop runs its iterations in order only until
the first failure — a failed iteration stops all subsequent mint attempts —
and the minted counter increments exactly once per successful iteration and
never on a failed one, so it equals the number of successful iterations
before the loop ended. -/
theorem mintLoop_stops_at_first_failure :
    ∀ (mints : Nat → StepResult) (assetPks : Nat → String),
      mintLoop mints assetPks 3 = mintLoopDescribed mints assetPks 3 := by
  intro mints assetPks
  have hr3 : List.range 3 = [0, 1, 2] := rfl
  have hr2 : List.range 2 = [0, 1] := rfl
  have hr1 : List.range 1 = [0] := rfl
  have hr0 : List.range 0 = [] := rfl
  rcases h0 : mints 0 with _ | t0
  · rcases h1 : mints 1 with _ | t1
    · rcases h2 : mints 2 with _ | t2
      · simp [mintLoop, mintLoopDescribed, firstMintFailure, mintLoopGo,
          isSuccess, errOf, hr3, h0, h1, h2, List.find?]
      · simp [mintLoop, mintLoopDescribed, firstMintFailure, mintLoopGo,
          isSuccess, errOf, hr3, hr2, h0, h1, h2, List.find?]
    · simp [mintLoop, mintLoopDescribed, firstMintFailure, mintLoopGo,
        isSuccess, errOf, hr3, hr1, h0, h1, List.find?]
  · simp [mintLoop, mintLoopDescribed, firstMintFailure, mintLoopGo,
      isSuccess, errOf, hr3, hr0, h0, List.find?]

/-- Claim C3, counterexample: a fetch failure that throws an Error (the shape
every umi fetcher failure has, an absent account included) is reported
through the same incorrect-configuration line used for field mismatches, not
through the distinct fetch-error line — refuting that a fetch failure is
never reported as a field mismatch. -/
theorem fetch_error_reported_as_mismatch_cex :
    checkCandyMachine (.thrown (.error accountNotFoundMsg))
        (postLoadExpected baseEnv) (some 5)
      = Except.ok [mismatchLine 5 accountNotFoundMsg]
    ∧ containsSubstr (mismatchLine 5 accountNotFoundMsg) "Error fetching" = false
    ∧ containsSubstr (mismatchLine 5 accountNotFoundMsg) "incorrect configuration" = true :=
  ⟨rfl, rfl, rfl⟩

/-- Claim C3, amended: the verifier's catch discriminates on the thrown
value's type, not on the failure's origin — the distinct fetch-error line is
emitted exactly when the thrown value is not an Error, while any thrown
Error, a fetch failure included, is reported through the
incorrect-configuration line carrying the Error's message. -/
theorem fetch_error_marker_depends_on_thrown_kind :
    ∀ (e : ExpectedCandyMachineState) (msg : String),
      checkCandyMachine (.thrown .nonError) e (some 5)
        = Except.ok [fetchFailLine 5]
      ∧ checkCandyMachine (.thrown (.error msg)) e (some 5)
        = Except.ok [mismatchLine 5 msg] :=
  fun _ _ => ⟨rfl, rfl⟩

/-- Claim C2: on a fetched record the verifier compares itemsRedeemed,
itemsLoaded, authority and collectionMint in that order against the expected
fields with exact equality; the first mismatching field ends the comparison
and is the single reported failure reason, and the success marker is emitted
exactly when all four fields match (stated at the post-load call's step
number 5). -/
theorem checkCandyMachine_field_order :
    ∀ (m : CandyMachineRecord) (e : ExpectedCandyMachineState),
      (((m.itemsRedeemed == e.itemsRedeemed) = false
          ∧ checkCandyMachine (.fetched m) e (some 5)
            = Except.ok [mismatchLine 5 "Incorrect number of items available in the Candy Machine."])
        ∨ (m.itemsRedeemed = e.itemsRedeemed
          ∧ (m.itemsLoaded == e.itemsLoaded) = false
          ∧ checkCandyMachine (.fetched m) e (some 5)
            = Except.ok [mismatchLine 5 "Incorrect number of items loaded in the Candy Machine."])
        ∨ (m.itemsRedeemed = e.itemsRedeemed ∧ m.itemsLoaded = e.itemsLoaded
          ∧ (m.authority == e.authority) = false
          ∧ checkCandyMachine (.fetched m) e (some 5)
            = Except.ok [mismatchLine 5 "Incorrect authority in the Candy Machine."])
        ∨ (m.itemsRedeemed = e.itemsRedeemed ∧ m.itemsLoaded = e.itemsLoaded
          ∧ m.authority = e.authority
          ∧ (m.collectionMint == e.collection) = false
          ∧ checkCandyMachine (.fetched m) e (some 5)
            = Except.ok [mismatchLine 5 "Incorrect collection in the Candy Machine."])
        ∨ (m.itemsRedeemed = e.itemsRedeemed ∧ m.itemsLoaded = e.itemsLoaded
          ∧ m.authority = e.authority ∧ m.collectionMint = e.collection
          ∧ checkCandyMachine (.fetched m) e (some 5) = Except.ok [successLine 5]))
      ∧ (checkCandyMachine (.fetched m) e (some 5) = Except.ok [successLine 5]
        ↔ m.itemsRedeemed = e.itemsRedeemed ∧ m.itemsLoaded = e.itemsLoaded
          ∧ m.authority = e.authority ∧ m.collectionMint = e.collection) := by
  intro m e
  by_cases h1 : m.itemsRedeemed = e.itemsRedeemed
  · by_cases h2 : m.itemsLoaded = e.itemsLoaded
    · by_cases h3 : m.authority = e.authority
      · by_cases h4 : m.collectionMint = e.collection
        · have hc : checkCandyMachine (.fetched m) e (some 5)
              = Except.ok [successLine 5] := by
            simp [checkCandyMachine, checkCMBody, logIfStep, h1, h2, h3, h4]
          exact ⟨Or.inr (Or.inr (Or.inr (Or.inr ⟨h1, h2, h3, h4, hc⟩))),
            fun _ => ⟨h1, h2, h3, h4⟩, fun _ => hc⟩
        · have hc : checkCandyMachine (.fetched m) e (some 5)
              = Except.ok [mismatchLine 5 "Incorrect collection in the Candy Machine."] := by
            simp [checkCandyMachine, checkCMBody, logIfStep, h1, h2, h3, h4]
          refine ⟨Or.inr (Or.inr (Or.inr (Or.inl
            ⟨h1, h2, h3, beq_eq_false_iff_ne.mpr h4, hc⟩))), ?_, fun hAll => absurd hAll.2.2.2 h4⟩
          intro hEq
          rw [hc] at hEq
          injection hEq with hl
          injection hl with hs
          exact absurd hs (by decide)
      · have hc : checkCandyMachine (.fetched m) e (some 5)
            = Except.ok [mismatchLine 5 "Incorrect authority in the Candy Machine."] := by
          simp [checkCandyMachine, checkCMBody, logIfStep, h1, h2, h3]
        refine ⟨Or.inr (Or.inr (Or.inl
          ⟨h1, h2, beq_eq_false_iff_ne.mpr h3, hc⟩)), ?_, fun hAll => absurd hAll.2.2.1 h3⟩
        intro hEq
        rw [hc] at hEq
        injection hEq with hl
        injection hl with hs
        exact absurd hs (by decide)
    · have hc : checkCandyMachine (.fetched m) e (some 5)
          = Except.ok [mismatchLine 5 "Incorrect number of items loaded in the Candy Machine."] := by
        simp [checkCandyMachine, checkCMBody, logIfStep, h1, h2]
      refine ⟨Or.inr (Or.inl
        ⟨h1, beq_eq_false_iff_ne.mpr h2, hc⟩), ?_, fun hAll => absurd hAll.2.1 h2⟩
      intro hEq
      rw [hc] at hEq
      injection hEq with hl
      injection hl with hs
      exact absurd hs (by decide)
  · have hc : checkCandyMachine (.fetched m) e (some 5)
        = Except.ok [mismatchLine 5 "Incorrect number of items available in the Candy Machine."] := by
      simp [checkCandyMachine, checkCMBody, logIfStep, h1]
    refine ⟨Or.inl ⟨beq_eq_false_iff_ne.mpr h1, hc⟩, ?_, fun hAll => absurd hAll.1 h1⟩
    intro hEq
    rw [hc] at hEq
    injection hEq with hl
    injection hl with hs
    exact absurd hs (by decide)

/-- Claim C4, counterexample: in the run whose collection-creation
submission throws an Error with message boom, the pipeline's step-2 marker
is the fixed generic line and the message boom appears in no emitted line —
refuting that the failure marker carries the failure's message. -/
theorem step_failure_marker_omits_message_cex :
    main envCollectionBoom = Except.ok logsCollectionBoom
    ∧ logsCollectionBoom.all (fun l => !(containsSubstr l "boom")) = true
    ∧ "2. ❌ - Error creating collection." ∈ logsCollectionBoom :=
  ⟨rfl, rfl, by decide⟩

/-- Claim C4, amended: for every run, every step's try/catch swallows its
thrown value — the pipeline returns normally — and each of the five mutating
steps contributes its marker line to the output whatever the other steps'
outcomes: its success line on success, its fixed generic failure line
(carrying the step index but never the failure's message) on failure, so a
failed step never prevents the later steps' markers from appearing. -/
theorem pipeline_steps_isolated_generic_markers :
    ∀ env : RunOutcomes, ∃ logs : List String,
      main env = Except.ok logs
      ∧ stepLine env.createCollection
          ("2. ✅ - Created collection: " ++ env.collectionMintPk)
          "2. ❌ - Error creating collection." ∈ logs
      ∧ stepLine env.createMachine
          ("3. ✅ - Created Candy Machine: " ++ env.candyMachinePk)
          "3. ❌ - Error creating Candy Machine." ∈ logs
      ∧ stepLine env.addConfigLines
          ("4. ✅ - Added items to the Candy Machine: " ++ env.candyMachinePk)
          "4. ❌ - Error adding items to the Candy Machine." ∈ logs
      ∧ mintFinalLine env ∈ logs
      ∧ stepLine env.deleteMachine
          ("8. ✅ - Deleted the Candy Machine: " ++ env.candyMachinePk)
          "8. ❌ - Error deleting the Candy Machine." ∈ logs := by
  intro env
  obtain ⟨l5, h5⟩ := checkCandyMachine_isOk env.fetch1 (postLoadExpected env) (some 5)
  obtain ⟨l7, h7⟩ := checkCandyMachine_isOk env.fetch2 (postMintExpected env) (some 7)
  have hrun : main env = Except.ok (pipelineLogs env l5 l7) := by
    unfold main
    rw [h5, h7]
  refine ⟨pipelineLogs env l5 l7, hrun, ?_, ?_, ?_, ?_, ?_⟩ <;>
    simp only [pipelineLogs, List.mem_append]
  · exact Or.inr (Or.inl (stepLine_mem_tryStep _ _ _))
  · exact Or.inr (Or.inr (Or.inl (stepLine_mem_tryStep _ _ _)))
  · exact Or.inr (Or.inr (Or.inr (Or.inl (stepLine_mem_tryStep _ _ _))))
  · exact Or.inr (Or.inr (Or.inr (Or.inr (Or.inr (Or.inl (mintFinalLine_mem_mintStep env))))))
  · exact Or.inr (Or.inr (Or.inr (Or.inr (Or.inr (Or.inr (Or.inr (stepLine_mem_tryStep _ _ _)))))))

/-- Claim C5, counterexample: in the run whose every mint submission throws,
the loop's minted counter ends at 0, yet the post-mint verification's
expected itemsRedeemed is the literal 3 — refuting that the expected value
equals the number successfully minted. -/
theorem postMint_expected_not_minted_cex :
    (postMintExpected envAllMintsFail).itemsRedeemed = 3
    ∧ (mintLoop envAllMintsFail.mints envAllMintsFail.assetPks 3).minted = 0
    ∧ ((postMintExpected envAllMintsFail).itemsRedeemed
        == (mintLoop envAllMintsFail.mints envAllMintsFail.assetPks 3).minted) = false :=
  ⟨rfl, rfl, rfl⟩

/-- Claim C5, amended: the post-mint verification invokes the State Verifier
with expected itemsRedeemed equal to the constant 3 (the requested mint
count), whatever the minting loop actually accumulated, and with expected
itemsLoaded unchanged from the post-load verification. -/
theorem postMint_expected_constant :
    ∀ env : RunOutcomes,
      (postMintExpected env).itemsRedeemed = 3
      ∧ (postMintExpected env).itemsLoaded = (postLoadExpected env).itemsLoaded
      ∧ (postLoadExpected env).itemsLoaded = 3 :=
  fun _ => ⟨rfl, rfl, rfl⟩

/-- Claim C6: the Cost Tracker returns before minus after in the
human-denominated unit — the basis-point difference divided by 10^9 — so a
balance decrease yields a positive cost, an increase a negative one, and the
two quoted sample points evaluate to 0.002 and 0 exactly in the rational
model of the source's Number arithmetic. -/
theorem calculateCost_spec :
    (∀ b a : SolAmount,
      calculateCost b a = ((b.basisPoints - a.basisPoints : ℤ) : ℚ) / 1000000000)
    ∧ (∀ b a : SolAmount, (0 < calculateCost b a ↔ a.basisPoints < b.basisPoints))
    ∧ (∀ b a : SolAmount, (calculateCost b a < 0 ↔ b.basisPoints < a.basisPoints))
    ∧ calculateCost ⟨5000000000⟩ ⟨4998000000⟩ = 2 / 1000
    ∧ calculateCost ⟨5000000000⟩ ⟨5000000000⟩ = 0 := by
  have hc : (0 : ℚ) < 1000000000 := by norm_num
  refine ⟨?_, ?_, ?_, by norm_num [calculateCost], by norm_num [calculateCost]⟩
  · intro b a
    unfold calculateCost
    push_cast
    ring
  · intro b a
    unfold calculateCost
    rw [div_sub_div_same, lt_div_iff₀ hc, zero_mul, sub_pos, Int.cast_lt]
  · intro b a
    unfold calculateCost
    rw [div_sub_div_same, div_lt_iff₀ hc, zero_mul, sub_neg, Int.cast_lt]

/-- Claim C7: every royalty configuration the repository's scripts construct
and submit satisfies the royalty invariant — creator shares summing to
exactly 100 and basis points within 0..10000 — so no configuration violating
the invariant ever reaches submission. -/
theorem royalties_invariant_all_configs :
    ∀ identityPk payerA payerB creator1Pk creator2Pk : String,
      validRoyalties (pipelineRoyalties identityPk)
      ∧ validRoyalties (coreCollectionRoyalties payerA)
      ∧ validRoyalties (createCollectionRoyalties payerB)
      ∧ validRoyalties (educoreRoyalties creator1Pk creator2Pk) := by
  intro a b c d e
  refine ⟨?_, ?_, ?_, ?_⟩ <;>
    norm_num [validRoyalties, pipelineRoyalties, coreCollectionRoyalties,
      createCollectionRoyalties, educoreRoyalties]

/-- Claim C8, counterexample: in the run whose second mint submission throws,
the minted counter ends at 1, yet the second expected-state assertion
carries itemsRedeemed 3 — refuting that the two verification calls carry
itemsRedeemed values 0 then the minted count. -/
theorem expected_redeemed_not_minted_count_cex :
    (postLoadExpected envSecondMintFails).itemsRedeemed = 0
    ∧ (postMintExpected envSecondMintFails).itemsRedeemed = 3
    ∧ (mintLoop envSecondMintFails.mints envSecondMintFails.assetPks 3).minted = 1
    ∧ ((postMintExpected envSecondMintFails).itemsRedeemed
        == (mintLoop envSecondMintFails.mints envSecondMintFails.assetPks 3).minted) = false :=
  ⟨rfl, rfl, rfl, rfl⟩

/-- Claim C8, amended: the two expected-state assertions carry itemsRedeemed
values 0 then the constant 3 (the requested mint count), both with the same
itemsLoaded value 3, so the expected itemsRedeemed never decreases across
the run and never exceeds the expected itemsLoaded. -/
theorem expected_redeemed_monotone_bounded :
    ∀ env : RunOutcomes,
      (postLoadExpected env).itemsRedeemed = 0
      ∧ (postMintExpected env).itemsRedeemed = 3
      ∧ (postLoadExpected env).itemsLoaded = 3
      ∧ (postMintExpected env).itemsLoaded = 3
      ∧ (postLoadExpected env).itemsRedeemed ≤ (postMintExpected env).itemsRedeemed
      ∧ (postMintExpected env).itemsRedeemed ≤ (postMintExpected env).itemsLoaded :=
  fun _ => ⟨rfl, rfl, rfl, rfl, Nat.zero_le _, Nat.le_refl _⟩

/-- Claim C9: for every environment and every outcome of the external
read-and-parse chain, the wallet loader either returns the signer the chain
produced, or — when the chain throws for any reason (file missing,
unreadable, invalid JSON, invalid secret key) — throws an Error whose
message contains the resolved source path; it returns a signer only when the
chain succeeded. -/
theorem loadWallet_error_includes_path :
    ∀ (α : Type) (env : WalletEnv) (tryBody : String → Except Thrown α)
      (walletPath : Option String),
      (∃ signer, tryBody (finalWalletPath env walletPath) = Except.ok signer
        ∧ loadWallet env tryBody walletPath = Except.ok signer)
      ∨ (∃ t msg, tryBody (finalWalletPath env walletPath) = Except.error t
        ∧ loadWallet env tryBody walletPath = Except.error (.error msg)
        ∧ containsSubstr msg (finalWalletPath env walletPath) = true) := by
  intro α env tryBody walletPath
  cases h : tryBody (finalWalletPath env walletPath) with
  | ok signer =>
    exact Or.inl ⟨signer, rfl, by unfold loadWallet; rw [h]⟩
  | error t =>
    refine Or.inr ⟨t, _, rfl, by unfold loadWallet; rw [h], ?_⟩
    unfold containsSubstr
    simp only [String.data_append, List.append_assoc]
    exact listContainsSub_append_middle_assoc _ _ _

/-- Claim C10: the State Verifier never propagates a thrown value — for
every fetch outcome (a fetched record, a thrown Error, or a thrown non-Error
value), every expected state and every step argument, checkCandyMachine
returns normally, mismatches and fetch failures surfacing only as emitted
lines. -/
theorem checkCandyMachine_never_throws :
    ∀ (fetch : FetchOutcome) (e : ExpectedCandyMachineState) (step : Option Nat),
      ∃ logs, checkCandyMachine fetch e step = Except.ok logs :=
  fun fetch e step => checkCandyMachine_isOk fetch e step

end MplCore
